import Mathlib

/-!
Verification of the tCam-Mini JSON command/response utilities
(`firmware/components/cmd/json_utilities.c`).

The C source is shallowly embedded: each validator becomes a pure Lean
function over a small model of cJSON argument objects, machine integers
become `Nat`/`Int` with explicit `% 2^w` where the C code can overflow,
and the heap used by the base64 embedder becomes an explicit allocation
trace so that the free-exactly-once obligation can be stated.
-/

set_option autoImplicit false

namespace JsonUtil

/-- Model of a cJSON leaf value as consumed by this module: the validators
only ever read `valueint` (a C `int`) or `valuestring`. -/
inductive JVal where
  | num (n : Int)
  | str (s : String)
deriving Repr, DecidableEq

/-- Model of a cJSON object node: an ordered list of key/value pairs.
`cJSON_GetObjectItem` returns the first entry with a matching key. -/
structure JObj where
  items : List (String × JVal)
deriving Repr, DecidableEq

/-- Model of `cJSON_HasObjectItem(o, k)`. -/
def JObj.hasItem (o : JObj) (k : String) : Bool :=
  o.items.any (fun p => p.1 == k)

/-- Model of `cJSON_GetObjectItem(o, k)->valueint`.  cJSON stores 0 in
`valueint` for non-number nodes. -/
def JObj.getInt (o : JObj) (k : String) : Int :=
  match o.items.find? (fun p => p.1 == k) with
  | some (_, JVal.num n) => n
  | _ => 0

/-- Model of `cJSON_GetObjectItem(o, k)->valuestring`.  For a non-string
node cJSON stores NULL; no code path settled here dereferences that case,
so it is modelled as the empty string. -/
def JObj.getStr (o : JObj) (k : String) : String :=
  match o.items.find? (fun p => p.1 == k) with
  | some (_, JVal.str s) => s
  | _ => ""

/-- C conversion of an `int` value to `uint8_t` (used by the stores into
byte-sized fields): reduction modulo 256. -/
def uint8OfInt (i : Int) : Nat :=
  (i % 256).toNat

/-- C conversion of an `int` value to `uint16_t`: reduction modulo 65536. -/
def uint16OfInt (i : Int) : Nat :=
  (i % 65536).toNat

/-! ### IP codec (`json_ip_string_to_array` and the dotted-quad rendering
of `json_get_wifi`) -/

/-- Loop body of `json_ip_string_to_array`: scans the characters, `i` is
the current octet index (starts at 3, decremented at each '.'), `arr` is
the 4-byte output array.  Digits accumulate as `ip_array[i]*10 + digit`
stored through a `uint8_t`, hence the `% 256`.  Returns the C function's
boolean result together with the (possibly partially written) array. -/
def ipLoop : List Char → Nat → List Nat → Bool × List Nat
  | [], _, arr => (true, arr)
  | c :: rest, i, arr =>
    if c = '.' then
      if i = 0 then
        (false, arr)
      else
        ipLoop rest (i - 1) (arr.set (i - 1) 0)
    else if '0' ≤ c ∧ c ≤ '9' then
      ipLoop rest i (arr.set i ((arr.getD i 0 * 10 + (c.toNat - 48)) % 256))
    else
      (false, arr)

/-- Embedding of `json_ip_string_to_array(ip_array, ip_string)`: zeroes
`ip_array[3]` and runs the scan loop. -/
def json_ip_string_to_array (arr : List Nat) (s : String) : Bool × List Nat :=
  ipLoop s.data 3 (arr.set 3 0)

/-- The dotted-quad rendering used by `json_get_wifi`:
`sprintf(buf, "%d.%d.%d.%d", a[3], a[2], a[1], a[0])` — indices are
emitted highest first. -/
def format_ip (arr : List Nat) : String :=
  toString (arr.getD 3 0) ++ "." ++ toString (arr.getD 2 0) ++ "." ++
    toString (arr.getD 1 0) ++ "." ++ toString (arr.getD 0 0)

/-! ### Spotmeter validator (`json_parse_set_spotmeter`) -/

/-- Modelled from the spec: `LEP_WIDTH` is defined in `vospi.h`, which is
not part of this source tree; the spec and its examples fix a 160-wide
Lepton frame. -/
def LEP_WIDTH : Nat := 160

/-- Modelled from the spec: `LEP_HEIGHT` is defined in `vospi.h`, which is
not part of this source tree; the spec and its examples fix a 120-high
Lepton frame. -/
def LEP_HEIGHT : Nat := 120

/-- Embedding of `json_parse_set_spotmeter(cmd_args, r1, c1, r2, c2)`.
The four `uint16_t*` output parameters are modelled as the input values
`(r1, c1, r2, c2)` (the caller's variables, possibly stale) together with
the returned quadruple.  Each present field is clamped in C `int`
arithmetic and then stored through `uint16_t`; the function returns true
iff `item_count == 4`. -/
def json_parse_set_spotmeter (args : Option JObj) (r1 c1 r2 c2 : Nat) :
    Bool × (Nat × Nat × Nat × Nat) :=
  match args with
  | none => (false, (r1, c1, r2, c2))
  | some a =>
    let pr1 :=
      if a.hasItem "r1" then
        let i : Int := a.getInt "r1"
        let i := if i < 0 then 0 else i
        let i := if i > (LEP_HEIGHT : Int) - 2 then (LEP_HEIGHT : Int) - 2 else i
        (uint16OfInt i, 1)
      else (r1, 0)
    let pc1 :=
      if a.hasItem "c1" then
        let i : Int := a.getInt "c1"
        let i := if i < 0 then 0 else i
        let i := if i > (LEP_WIDTH : Int) - 2 then (LEP_WIDTH : Int) - 2 else i
        (uint16OfInt i, 1)
      else (c1, 0)
    let pr2 :=
      if a.hasItem "r2" then
        let i : Int := a.getInt "r2"
        let i := if i < (pr1.1 : Int) + 1 then (pr1.1 : Int) + 1 else i
        let i := if i > (LEP_HEIGHT : Int) - 1 then (LEP_HEIGHT : Int) - 1 else i
        (uint16OfInt i, 1)
      else (r2, 0)
    let pc2 :=
      if a.hasItem "c2" then
        let i : Int := a.getInt "c2"
        let i := if i < (pc1.1 : Int) + 1 then (pc1.1 : Int) + 1 else i
        let i := if i > (LEP_WIDTH : Int) - 1 then (LEP_WIDTH : Int) - 1 else i
        (uint16OfInt i, 1)
      else (c2, 0)
    (decide (pr1.2 + pc1.2 + pr2.2 + pc2.2 = 4), (pr1.1, pc1.1, pr2.1, pc2.1))

/-! ### Configuration validator (`json_parse_set_config`) -/

/-- Embedding of the `json_config_t` fields this module touches.  The
struct itself is declared in a header outside this source tree; the field
set and types follow the reads/writes in `json_utilities.c` and the
spec's ConfigSnapshot. -/
structure JsonConfig where
  agc_set_enabled : Bool
  emissivity : Int
  gain_mode : Int
deriving Repr, DecidableEq

/-- Embedding of `json_parse_set_config(cmd_args, new_st)`.  `sysGainAuto`
stands for the constant `SYS_GAIN_AUTO` (declared in a header outside this
source tree), passed explicitly.  `cur` is the snapshot returned by
`system_get_lep_st()`.  Every field of the result is first copied from
`cur` and then overwritten for each present argument; the function returns
true iff at least one recognized field was present. -/
def json_parse_set_config (sysGainAuto : Int) (args : Option JObj) (cur : JsonConfig) :
    Bool × JsonConfig :=
  let new0 : JsonConfig :=
    { agc_set_enabled := cur.agc_set_enabled
      emissivity := cur.emissivity
      gain_mode := cur.gain_mode }
  match args with
  | none => (false, new0)
  | some a =>
    let p1 : JsonConfig × Nat :=
      if a.hasItem "agc_enabled" then
        ({ new0 with agc_set_enabled := decide (a.getInt "agc_enabled" > 0) }, 1)
      else (new0, 0)
    let p2 :=
      if a.hasItem "emissivity" then
        let e := a.getInt "emissivity"
        let e := if e < 1 then 1 else e
        let e := if e > 100 then 100 else e
        ({ p1.1 with emissivity := e }, p1.2 + 1)
      else p1
    let p3 :=
      if a.hasItem "gain_mode" then
        let g := a.getInt "gain_mode"
        let g := if g > sysGainAuto then sysGainAuto else g
        ({ p2.1 with gain_mode := g }, p2.2 + 1)
      else p2
    (decide (p3.2 > 0), p3.1)

/-! ### Time validator (`json_parse_set_time`) -/

/-- Embedding of the `tmElements_t` fields this module touches.  The
struct is declared in `time_utilities.h`, outside this source tree; the
field set follows the reads/writes in `json_utilities.c` (byte-sized
calendar fields plus the millisecond used by the metadata formatter). -/
structure TmElements where
  Second : Nat
  Minute : Nat
  Hour : Nat
  Wday : Nat
  Day : Nat
  Month : Nat
  Year : Nat
  Millisecond : Nat
deriving Repr, DecidableEq

/-- Embedding of `json_parse_set_time(cmd_args, te)`.  `te` is the
caller-supplied struct; each present field is written into it as the scan
proceeds (stores through byte-sized fields, hence `uint8OfInt`), and the
function returns true iff `item_count == 7`. -/
def json_parse_set_time (args : Option JObj) (te : TmElements) : Bool × TmElements :=
  match args with
  | none => (false, te)
  | some a =>
    let p1 : TmElements × Nat :=
      if a.hasItem "sec" then ({ te with Second := uint8OfInt (a.getInt "sec") }, 1)
      else (te, 0)
    let p2 :=
      if a.hasItem "min" then ({ p1.1 with Minute := uint8OfInt (a.getInt "min") }, p1.2 + 1)
      else p1
    let p3 :=
      if a.hasItem "hour" then ({ p2.1 with Hour := uint8OfInt (a.getInt "hour") }, p2.2 + 1)
      else p2
    let p4 :=
      if a.hasItem "dow" then ({ p3.1 with Wday := uint8OfInt (a.getInt "dow") }, p3.2 + 1)
      else p3
    let p5 :=
      if a.hasItem "day" then ({ p4.1 with Day := uint8OfInt (a.getInt "day") }, p4.2 + 1)
      else p4
    let p6 :=
      if a.hasItem "mon" then ({ p5.1 with Month := uint8OfInt (a.getInt "mon") }, p5.2 + 1)
      else p5
    let p7 :=
      if a.hasItem "year" then ({ p6.1 with Year := uint8OfInt (a.getInt "year") }, p6.2 + 1)
      else p6
    (decide (p7.2 = 7), p7.1)

/-! ### Wifi validator (`json_parse_set_wifi`) -/

/-- Embedding of the `wifi_info_t` fields this module touches.  The
struct is declared in a header outside this source tree; the field set
follows the reads/writes in `json_utilities.c`.  The four address fields
are 4-byte arrays, modelled as `List Nat`. -/
structure WifiInfo where
  ap_ssid : String
  sta_ssid : String
  ap_pw : String
  sta_pw : String
  flags : Nat
  ap_ip_addr : List Nat
  sta_ip_addr : List Nat
  sta_netmask : List Nat
  cur_ip_addr : List Nat
deriving Repr, DecidableEq

/-- The `for (i=0; i<4; i++) dst[i] = src[i];` copy loops of
`json_parse_set_wifi`. -/
def copy4 (dst src : List Nat) : List Nat :=
  ((((dst.set 0 (src.getD 0 0)).set 1 (src.getD 1 0)).set 2
      (src.getD 2 0)).set 3 (src.getD 3 0))

/-- Embedding of `json_parse_set_wifi(cmd_args, new_wifi_info)`.
`maxSsid`/`maxPw` stand for the constants `PS_SSID_MAX_LEN` /
`PS_PW_MAX_LEN` (declared in a header outside this source tree), passed
explicitly.  `cur` is the snapshot returned by `wifi_get_info()` and `w0`
the caller's `new_wifi_info` struct, written field by field; an invalid
present field returns false immediately with the struct as written so
far.  On reaching the end, `cur_ip_addr` is unconditionally copied from
the snapshot and the function returns true iff `item_count > 0`. -/
def json_parse_set_wifi (maxSsid maxPw : Nat) (args : Option JObj)
    (cur : WifiInfo) (w0 : WifiInfo) : Bool × WifiInfo :=
  match args with
  | none => (false, w0)
  | some a =>
    -- ap_ssid
    let w := w0
    let st1 : Option (WifiInfo × Nat) :=
      if a.hasItem "ap_ssid" then
        let s := a.getStr "ap_ssid"
        if s.length ≤ maxSsid then some ({ w with ap_ssid := s }, 1) else none
      else some ({ w with ap_ssid := cur.ap_ssid }, 0)
    match st1 with
    | none => (false, w)
    | some (w, cnt) =>
      -- sta_ssid
      let st2 : Option (WifiInfo × Nat) :=
        if a.hasItem "sta_ssid" then
          let s := a.getStr "sta_ssid"
          if s.length ≤ maxSsid then some ({ w with sta_ssid := s }, cnt + 1) else none
        else some ({ w with sta_ssid := cur.sta_ssid }, cnt)
      match st2 with
      | none => (false, w)
      | some (w, cnt) =>
        -- ap_pw
        let st3 : Option (WifiInfo × Nat) :=
          if a.hasItem "ap_pw" then
            let s := a.getStr "ap_pw"
            if s.length ≤ maxPw then some ({ w with ap_pw := s }, cnt + 1) else none
          else some ({ w with ap_pw := cur.ap_pw }, cnt)
        match st3 with
        | none => (false, w)
        | some (w, cnt) =>
          -- sta_pw
          let st4 : Option (WifiInfo × Nat) :=
            if a.hasItem "sta_pw" then
              let s := a.getStr "sta_pw"
              if s.length ≤ maxPw then some ({ w with sta_pw := s }, cnt + 1) else none
            else some ({ w with sta_pw := cur.sta_pw }, cnt)
          match st4 with
          | none => (false, w)
          | some (w, cnt) =>
            -- flags
            let w :=
              if a.hasItem "flags" then { w with flags := uint8OfInt (a.getInt "flags") }
              else { w with flags := cur.flags }
            let cnt := if a.hasItem "flags" then cnt + 1 else cnt
            -- ap_ip_addr (on parse failure the array has been partially
            -- written, so the failure state carries the parse output too)
            let st5 : Option (WifiInfo × Nat) :=
              if a.hasItem "ap_ip_addr" then
                if (json_ip_string_to_array w.ap_ip_addr (a.getStr "ap_ip_addr")).1 then
                  some ({ w with
                    ap_ip_addr :=
                      (json_ip_string_to_array w.ap_ip_addr (a.getStr "ap_ip_addr")).2 },
                    cnt + 1)
                else none
              else
                some ({ w with ap_ip_addr := copy4 w.ap_ip_addr cur.ap_ip_addr }, cnt)
            match st5 with
            | none =>
              (false, { w with
                ap_ip_addr :=
                  (json_ip_string_to_array w.ap_ip_addr (a.getStr "ap_ip_addr")).2 })
            | some (w, cnt) =>
              -- sta_ip_addr
              let st6 : Option (WifiInfo × Nat) :=
                if a.hasItem "sta_ip_addr" then
                  if (json_ip_string_to_array w.sta_ip_addr (a.getStr "sta_ip_addr")).1 then
                    some ({ w with
                      sta_ip_addr :=
                        (json_ip_string_to_array w.sta_ip_addr (a.getStr "sta_ip_addr")).2 },
                      cnt + 1)
                  else none
                else
                  some ({ w with sta_ip_addr := copy4 w.sta_ip_addr cur.sta_ip_addr }, cnt)
              match st6 with
              | none =>
                (false, { w with
                  sta_ip_addr :=
                    (json_ip_string_to_array w.sta_ip_addr (a.getStr "sta_ip_addr")).2 })
              | some (w, cnt) =>
                -- sta_netmask
                let st7 : Option (WifiInfo × Nat) :=
                  if a.hasItem "sta_netmask" then
                    if (json_ip_string_to_array w.sta_netmask (a.getStr "sta_netmask")).1 then
                      some ({ w with
                        sta_netmask :=
                          (json_ip_string_to_array w.sta_netmask (a.getStr "sta_netmask")).2 },
                        cnt + 1)
                    else none
                  else
                    some ({ w with sta_netmask := copy4 w.sta_netmask cur.sta_netmask }, cnt)
                match st7 with
                | none =>
                  (false, { w with
                    sta_netmask :=
                      (json_ip_string_to_array w.sta_netmask (a.getStr "sta_netmask")).2 })
                | some (w, cnt) =>
                  -- Just copy existing address over
                  let w := { w with cur_ip_addr := copy4 w.cur_ip_addr cur.cur_ip_addr }
                  (decide (cnt > 0), w)

/-! ### Response framing (`json_generate_response_string`) -/

/-- Modelled from the spec: `CMD_JSON_STRING_START` is declared in
`cmd_task.h`, outside this source tree; the spec only requires it to be a
single out-of-band byte distinct from compact JSON text, so the ASCII STX
byte is used. -/
def CMD_JSON_STRING_START : Nat := 2

/-- Modelled from the spec: `CMD_JSON_STRING_STOP` is declared in
`cmd_task.h`, outside this source tree; the spec only requires it to be a
single out-of-band byte distinct from compact JSON text, so the ASCII ETX
byte is used. -/
def CMD_JSON_STRING_STOP : Nat := 3

/-- Byte view of a Lean string, for the buffer model. -/
def strBytes (s : String) : List Nat :=
  s.data.map Char.toNat

/-- Write a byte sequence into a buffer starting at a given offset
(models consecutive `buf[off+k] = b` stores). -/
def writeBytes : List Nat → Nat → List Nat → List Nat
  | buf, _, [] => buf
  | buf, off, b :: bs => writeBytes (buf.set off b) (off + 1) bs

/-- C `strlen` on the buffer model: the number of bytes before the first
zero byte. -/
def cstrlen (buf : List Nat) : Nat :=
  (buf.takeWhile (fun b => b != 0)).length

/-- Embedding of `json_generate_response_string(root)`.  The external
`cJSON_PrintPreallocated(root, &buf[1], cap, false)` call is modelled by
its outcome `printRes`: `none` for failure, `some s` for success having
written the compact text `s` (NUL-terminated) at offset 1.  The function
stores the START byte at offset 0, takes `strlen` of the whole buffer,
appends the STOP byte and a terminating zero, and returns `strlen + 1`
(or 0 on print failure). -/
def json_generate_response_string (buf : List Nat) (printRes : Option String) :
    Nat × List Nat :=
  let buf := buf.set 0 CMD_JSON_STRING_START
  match printRes with
  | none => (0, buf)
  | some s =>
    let buf := writeBytes buf 1 (strBytes s ++ [0])
    let len := cstrlen buf
    let buf := buf.set len CMD_JSON_STRING_STOP
    let buf := buf.set (len + 1) 0
    (len + 1, buf)

/-! ### Metadata time/date formatting (`json_add_metadata_object`,
duplicated verbatim in `json_get_status`) -/

/-- One conversion of a simplified `sprintf` format string: a literal
chunk, a `%d` conversion, or a `%02d` conversion. -/
inductive FmtItem where
  | lit (s : String)
  | d
  | d02
deriving Repr, DecidableEq

/-- C `%d` rendering of an `int` argument. -/
def fmtD (n : Int) : String :=
  toString n

/-- C `%02d` rendering of an `int` argument: zero-padded to width 2, with
the padding inserted after the sign for negative values. -/
def fmtD02 (n : Int) : String :=
  if n < 0 then "-" ++ toString (-n)
  else if n < 10 then "0" ++ toString n
  else toString n

/-- Run a simplified `sprintf`: consume the format items left to right,
taking one argument per conversion. -/
def runFmt : List FmtItem → List Int → String
  | [], _ => ""
  | FmtItem.lit s :: rest, args => s ++ runFmt rest args
  | FmtItem.d :: rest, a :: args => fmtD a ++ runFmt rest args
  | FmtItem.d :: _, [] => ""
  | FmtItem.d02 :: rest, a :: args => fmtD02 a ++ runFmt rest args
  | FmtItem.d02 :: _, [] => ""

/-- The "Time" string of the metadata/status block:
`sprintf(buf, "%d:%02d:%02d.%d", te.Hour, te.Minute, te.Second, te.Millisecond)`. -/
def json_time_string (te : TmElements) : String :=
  runFmt [FmtItem.d, FmtItem.lit ":", FmtItem.d02, FmtItem.lit ":",
          FmtItem.d02, FmtItem.lit ".", FmtItem.d]
         [(te.Hour : Int), (te.Minute : Int), (te.Second : Int), (te.Millisecond : Int)]

/-- The "Date" string of the metadata/status block:
`sprintf(buf, "%d/%d/%02d", te.Month, te.Day, te.Year-30)`. -/
def json_date_string (te : TmElements) : String :=
  runFmt [FmtItem.d, FmtItem.lit "/", FmtItem.d, FmtItem.lit "/", FmtItem.d02]
         [(te.Month : Int), (te.Day : Int), (te.Year : Int) - 30]

/-- Two-digit zero-padded rendering of a natural number, used to state
the spec's `MM`/`SS`-style patterns. -/
def pad2 (n : Nat) : String :=
  if n < 10 then "0" ++ toString n else toString n

/-- The claim's reading of the metadata time format, built from the
spec's words: `H:MM:SS.mmm` with no leading zero on the hour, zero-padded
minute and second, and the millisecond printed as its literal digits. -/
def specClaimTimeString (te : TmElements) : String :=
  toString te.Hour ++ ":" ++ pad2 te.Minute ++ ":" ++ pad2 te.Second ++ "." ++
    toString te.Millisecond

/-- The claim's reading of the metadata date format, built from the
spec's words: `MM/DD/YY` with the two-digit year equal to the stored
year-offset minus 30. -/
def specClaimDateString (te : TmElements) : String :=
  pad2 te.Month ++ "/" ++ pad2 te.Day ++ "/" ++ fmtD02 ((te.Year : Int) - 30)

/-! ### Base64 embedder and image-file build (`json_add_lep_image_object`,
`json_add_lep_telem_object`, `json_get_image_file_string`)

The external collaborators (heap allocator, mbedtls base64 encoder, cJSON
printer) are modelled by an oracle `B64Env` fixing the outcome of each
call, and the heap by an explicit trace of allocation identifiers so that
the exactly-once-free obligation is a statement about lists. -/

/-- Oracle for one run of `json_get_image_file_string`: the outcome of
`cJSON_CreateObject`, of the two `heap_caps_malloc` calls, of the two
real `mbedtls_base64_encode` calls, and of `cJSON_PrintPreallocated`
(with the `strlen` of the printed text when it succeeds). -/
structure B64Env where
  rootOk : Bool
  imgAllocOk : Bool
  imgEncodeOk : Bool
  telAllocOk : Bool
  telEncodeOk : Bool
  printOk : Bool
  printLen : Nat
deriving Repr, DecidableEq

/-- Heap/pointer state of the embedder: the two static pointers
`base64_lep_data` and `base64_lep_telem_data` (`none` models NULL), a
fresh-identifier counter, and the trace of allocations and frees made
during the current build.  A `free(NULL)` records nothing, matching C. -/
structure B64State where
  lepData : Option Nat
  telemData : Option Nat
  nextId : Nat
  allocs : List Nat
  frees : List Nat
deriving Repr, DecidableEq

/-- Model of `heap_caps_malloc`: on success, returns a fresh identifier
and records the allocation; on failure, returns NULL. -/
def halloc (ok : Bool) (st : B64State) : Option Nat × B64State :=
  if ok then
    (some st.nextId,
     { st with nextId := st.nextId + 1, allocs := st.allocs ++ [st.nextId] })
  else (none, st)

/-- Model of `free(p)`: records the identifier; `free(NULL)` is a no-op. -/
def hfree (p : Option Nat) (st : B64State) : B64State :=
  match p with
  | some id => { st with frees := st.frees ++ [id] }
  | none => st

/-- Embedding of `json_add_lep_image_object(parent, lep_buffer)`.  The
size-query encode call touches no state; the allocation result is stored
into `base64_lep_data` (even when NULL); on encode failure the buffer is
freed and false returned.  The cJSON string reference is not modelled —
only the claim-relevant allocation bookkeeping is. -/
def json_add_lep_image_object (env : B64Env) (st : B64State) : Bool × B64State :=
  let pr := halloc env.imgAllocOk st
  let st := { pr.2 with lepData := pr.1 }
  match pr.1 with
  | some _ =>
    if env.imgEncodeOk then (true, st)
    else (false, hfree st.lepData st)
  | none => (false, st)

/-- Embedding of `json_free_lep_base64_image()`.  The C pointer is not
nulled by `free`, so the field keeps its (now dangling) value — a second
call would record a second free of the same identifier. -/
def json_free_lep_base64_image (st : B64State) : B64State :=
  hfree st.lepData st

/-- Embedding of `json_add_lep_telem_object(parent, lep_buffer)`.  Note
the source checks `base64_lep_data != NULL` (the image pointer) after the
telemetry allocation, not `base64_lep_telem_data`; the model reproduces
that check faithfully. -/
def json_add_lep_telem_object (env : B64Env) (st : B64State) : Bool × B64State :=
  let pr := halloc env.telAllocOk st
  let st := { pr.2 with telemData := pr.1 }
  match st.lepData with
  | some _ =>
    if env.telEncodeOk then (true, st)
    else (false, hfree st.telemData st)
  | none => (false, st)

/-- Embedding of `json_free_lep_base64_telem()`. -/
def json_free_lep_base64_telem (st : B64State) : B64State :=
  hfree st.telemData st

/-- Result of one run of `json_get_image_file_string`: the returned
length, the final heap state, and (as ghost observations) the boolean
results of the image and telemetry embed calls. -/
structure ImgFileResult where
  len : Nat
  st : B64State
  imgOk : Bool
  telOk : Bool
deriving Repr, DecidableEq

/-- Embedding of `json_get_image_file_string(json_image_text, lep_buffer)`.
`json_add_metadata_object` always returns true in the source, so the
first `success` assignment is the image embed.  On telemetry failure the
already-allocated image buffer is freed; on overall success both buffers
are freed after printing (whose own failure only zeroes the length). -/
def json_get_image_file_string (env : B64Env) (st0 : B64State) : ImgFileResult :=
  if env.rootOk then
    let pi := json_add_lep_image_object env st0
    let pt :=
      if pi.1 then
        let pt0 := json_add_lep_telem_object env pi.2
        if pt0.1 then pt0 else (pt0.1, json_free_lep_base64_image pt0.2)
      else (false, pi.2)
    if pi.1 && pt.1 then
      let len := if env.printOk then env.printLen else 0
      let st := json_free_lep_base64_telem (json_free_lep_base64_image pt.2)
      { len := len, st := st, imgOk := pi.1, telOk := pt.1 }
    else
      { len := 0, st := pt.2, imgOk := pi.1, telOk := pt.1 }
  else
    { len := 0, st := st0, imgOk := false, telOk := false }

/-- The exactly-once-free invariant over an allocation trace: every
allocation of the build is freed exactly once, and nothing but this
build's allocations is freed. -/
def freedExactlyOnce (st : B64State) : Bool :=
  st.allocs.all (fun id => st.frees.count id == 1) &&
    st.frees.all (fun id => st.allocs.contains id)

/-! ## Claim theorems -/

/-- C3 counterexample: contrary to the claim, a dotted string with fewer
than three '.' separators is accepted — `json_ip_string_to_array` applied
to "1.2.3" returns true, because the scan never checks that all three
separators were consumed. -/
theorem ip_parse_too_few_separators_counterexample :
    (json_ip_string_to_array [0, 0, 0, 0] "1.2.3").1 = true := by decide

/-- C3 (amended): a dotted string with fewer than three separators is
accepted ("1.2.3" returns success — the separator count is never checked
downward), while more than three separators ("1.2.3.4.5") and any
non-digit, non-'.' character ("1.2.x.4") cause failure. -/
theorem ip_parse_separator_and_digit_failures :
    (json_ip_string_to_array [0, 0, 0, 0] "1.2.3").1 = true ∧
    (json_ip_string_to_array [0, 0, 0, 0] "1.2.3.4.5").1 = false ∧
    (json_ip_string_to_array [0, 0, 0, 0] "1.2.x.4").1 = false := by decide

/-- C2 counterexample: contrary to the claim, a `set_time` args node with
a proper subset of the seven fields does modify the caller-supplied
timestamp — with only `sec` present the call fails but the second field
has already been written. -/
theorem set_time_partial_write_counterexample :
    (json_parse_set_time (some ⟨[("sec", JVal.num 5)]⟩) ⟨0, 0, 0, 0, 0, 0, 0, 0⟩).1 = false ∧
    (json_parse_set_time (some ⟨[("sec", JVal.num 5)]⟩) ⟨0, 0, 0, 0, 0, 0, 0, 0⟩).2 ≠
      ⟨0, 0, 0, 0, 0, 0, 0, 0⟩ := by decide

/-- C2 (amended): with args present, `json_parse_set_time` succeeds
exactly when all seven fields (sec, min, hour, dow, day, mon, year) are
present; on a proper subset it returns failure, but each field that is
present has already been written into the caller-supplied timestamp —
only the absent fields are left unmodified. -/
theorem set_time_field_semantics :
    ∀ (a : JObj) (te : TmElements),
      ((json_parse_set_time (some a) te).1 = true ↔
        (a.hasItem "sec" = true ∧ a.hasItem "min" = true ∧ a.hasItem "hour" = true ∧
         a.hasItem "dow" = true ∧ a.hasItem "day" = true ∧ a.hasItem "mon" = true ∧
         a.hasItem "year" = true)) ∧
      (a.hasItem "sec" = false → (json_parse_set_time (some a) te).2.Second = te.Second) ∧
      (a.hasItem "min" = false → (json_parse_set_time (some a) te).2.Minute = te.Minute) ∧
      (a.hasItem "hour" = false → (json_parse_set_time (some a) te).2.Hour = te.Hour) ∧
      (a.hasItem "dow" = false → (json_parse_set_time (some a) te).2.Wday = te.Wday) ∧
      (a.hasItem "day" = false → (json_parse_set_time (some a) te).2.Day = te.Day) ∧
      (a.hasItem "mon" = false → (json_parse_set_time (some a) te).2.Month = te.Month) ∧
      (a.hasItem "year" = false → (json_parse_set_time (some a) te).2.Year = te.Year) := by
  intro a te
  cases h1 : a.hasItem "sec" <;> cases h2 : a.hasItem "min" <;>
    cases h3 : a.hasItem "hour" <;> cases h4 : a.hasItem "dow" <;>
    cases h5 : a.hasItem "day" <;> cases h6 : a.hasItem "mon" <;>
    cases h7 : a.hasItem "year" <;>
    simp [json_parse_set_time, h1, h2, h3, h4, h5, h6, h7]

/-- C2 witness: the amended preservation clauses evaluated at a concrete
args node containing only `sec`. -/
theorem set_time_field_semantics_witness :
    (JObj.hasItem ⟨[("sec", JVal.num 5)]⟩ "min" = false) ∧
    (json_parse_set_time (some ⟨[("sec", JVal.num 5)]⟩) ⟨0, 0, 0, 0, 0, 0, 0, 0⟩).2.Minute =
      (⟨0, 0, 0, 0, 0, 0, 0, 0⟩ : TmElements).Minute :=
  ⟨by decide,
   (set_time_field_semantics ⟨[("sec", JVal.num 5)]⟩ ⟨0, 0, 0, 0, 0, 0, 0, 0⟩).2.2.1 (by decide)⟩

/-- C6: `json_parse_set_spotmeter` with args containing only `r1 = 5`
returns failure; with `r1 = 5, c1 = 5, r2 = 200, c2 = 200` on the 160×120
frame it returns success with `r2` clamped to 119 and `c2` clamped to
159; and in general (args present) it succeeds exactly when all four of
`r1, c1, r2, c2` are present. -/
theorem set_spotmeter_examples_and_presence :
    (∀ r c r' c' : Nat,
      (json_parse_set_spotmeter (some ⟨[("r1", JVal.num 5)]⟩) r c r' c').1 = false) ∧
    (∀ r c r' c' : Nat,
      json_parse_set_spotmeter
        (some ⟨[("r1", JVal.num 5), ("c1", JVal.num 5),
                ("r2", JVal.num 200), ("c2", JVal.num 200)]⟩) r c r' c' =
        (true, (5, 5, 119, 159))) ∧
    (∀ (a : JObj) (r c r' c' : Nat),
      (json_parse_set_spotmeter (some a) r c r' c').1 = true ↔
        (a.hasItem "r1" = true ∧ a.hasItem "c1" = true ∧
         a.hasItem "r2" = true ∧ a.hasItem "c2" = true)) := by
  refine ⟨fun r c r' c' => ?_, fun r c r' c' => ?_, fun a r c r' c' => ?_⟩
  · rfl
  · rfl
  · cases h1 : a.hasItem "r1" <;> cases h2 : a.hasItem "c1" <;>
      cases h3 : a.hasItem "r2" <;> cases h4 : a.hasItem "c2" <;>
      simp [json_parse_set_spotmeter, h1, h2, h3, h4]

/-- C7: every successful `json_parse_set_spotmeter` call produces a
region with `r1 < r2 ≤ LEP_HEIGHT - 1` and `c1 < c2 ≤ LEP_WIDTH - 1`
(non-negativity is carried by the `Nat` representation of `uint16_t`). -/
theorem set_spotmeter_region_invariant (a : JObj) (r c r' c' : Nat)
    (h : (json_parse_set_spotmeter (some a) r c r' c').1 = true) :
    (json_parse_set_spotmeter (some a) r c r' c').2.1 <
      (json_parse_set_spotmeter (some a) r c r' c').2.2.2.1 ∧
    (json_parse_set_spotmeter (some a) r c r' c').2.2.2.1 ≤ LEP_HEIGHT - 1 ∧
    (json_parse_set_spotmeter (some a) r c r' c').2.2.1 <
      (json_parse_set_spotmeter (some a) r c r' c').2.2.2.2 ∧
    (json_parse_set_spotmeter (some a) r c r' c').2.2.2.2 ≤ LEP_WIDTH - 1 := by
  cases h1 : a.hasItem "r1" <;> cases h2 : a.hasItem "c1" <;>
    cases h3 : a.hasItem "r2" <;> cases h4 : a.hasItem "c2" <;>
    simp [json_parse_set_spotmeter, h1, h2, h3, h4] at h ⊢
  simp only [LEP_HEIGHT, LEP_WIDTH, uint16OfInt]
  constructor
  · split_ifs <;> omega
  constructor
  · split_ifs <;> omega
  constructor
  · split_ifs <;> omega
  · split_ifs <;> omega

/-- C7 witness: the invariant evaluated on the concrete example region
of the spec. -/
theorem set_spotmeter_region_invariant_witness :
    (json_parse_set_spotmeter
        (some ⟨[("r1", JVal.num 5), ("c1", JVal.num 5),
                ("r2", JVal.num 200), ("c2", JVal.num 200)]⟩) 0 0 0 0).2.1 <
      (json_parse_set_spotmeter
        (some ⟨[("r1", JVal.num 5), ("c1", JVal.num 5),
                ("r2", JVal.num 200), ("c2", JVal.num 200)]⟩) 0 0 0 0).2.2.2.1 ∧
    (json_parse_set_spotmeter
        (some ⟨[("r1", JVal.num 5), ("c1", JVal.num 5),
                ("r2", JVal.num 200), ("c2", JVal.num 200)]⟩) 0 0 0 0).2.2.2.1 ≤
      LEP_HEIGHT - 1 ∧
    (json_parse_set_spotmeter
        (some ⟨[("r1", JVal.num 5), ("c1", JVal.num 5),
                ("r2", JVal.num 200), ("c2", JVal.num 200)]⟩) 0 0 0 0).2.2.1 <
      (json_parse_set_spotmeter
        (some ⟨[("r1", JVal.num 5), ("c1", JVal.num 5),
                ("r2", JVal.num 200), ("c2", JVal.num 200)]⟩) 0 0 0 0).2.2.2.2 ∧
    (json_parse_set_spotmeter
        (some ⟨[("r1", JVal.num 5), ("c1", JVal.num 5),
                ("r2", JVal.num 200), ("c2", JVal.num 200)]⟩) 0 0 0 0).2.2.2.2 ≤
      LEP_WIDTH - 1 :=
  set_spotmeter_region_invariant
    ⟨[("r1", JVal.num 5), ("c1", JVal.num 5),
      ("r2", JVal.num 200), ("c2", JVal.num 200)]⟩ 0 0 0 0 (by decide)

/-- C8: `json_parse_set_config` fails on a missing args node and on an
empty args object; with `emissivity = 500` it succeeds with emissivity
clamped to 100; and every field not present in args is copied unchanged
from the current snapshot. -/
theorem set_config_merge_and_clamp :
    (∀ (g : Int) (cur : JsonConfig), (json_parse_set_config g none cur).1 = false) ∧
    (∀ (g : Int) (cur : JsonConfig), (json_parse_set_config g (some ⟨[]⟩) cur).1 = false) ∧
    (∀ (g : Int) (cur : JsonConfig),
      json_parse_set_config g (some ⟨[("emissivity", JVal.num 500)]⟩) cur =
        (true, { agc_set_enabled := cur.agc_set_enabled, emissivity := 100,
                 gain_mode := cur.gain_mode })) ∧
    (∀ (g : Int) (a : JObj) (cur : JsonConfig),
      (a.hasItem "agc_enabled" = false →
        (json_parse_set_config g (some a) cur).2.agc_set_enabled = cur.agc_set_enabled) ∧
      (a.hasItem "emissivity" = false →
        (json_parse_set_config g (some a) cur).2.emissivity = cur.emissivity) ∧
      (a.hasItem "gain_mode" = false →
        (json_parse_set_config g (some a) cur).2.gain_mode = cur.gain_mode)) := by
  refine ⟨fun g cur => rfl, fun g cur => rfl, fun g cur => rfl, fun g a cur => ?_⟩
  cases h1 : a.hasItem "agc_enabled" <;> cases h2 : a.hasItem "emissivity" <;>
    cases h3 : a.hasItem "gain_mode" <;>
    simp [json_parse_set_config, h1, h2, h3]

/-- C8 witness: the unchanged-field clause evaluated at the spec's
concrete example (`emissivity = 500` present, `gain_mode` absent). -/
theorem set_config_merge_and_clamp_witness :
    (JObj.hasItem ⟨[("emissivity", JVal.num 500)]⟩ "gain_mode" = false) ∧
    (json_parse_set_config 2 (some ⟨[("emissivity", JVal.num 500)]⟩)
        ⟨true, 42, 1⟩).2.gain_mode = (⟨true, 42, 1⟩ : JsonConfig).gain_mode :=
  ⟨by decide,
   (set_config_merge_and_clamp.2.2.2 2 ⟨[("emissivity", JVal.num 500)]⟩
      ⟨true, 42, 1⟩).2.2 (by decide)⟩

/-- C9 counterexample: contrary to the claim's `MM/DD/YY` pattern, the
date formatter does not zero-pad month and day — on January 2nd of
year-offset 55 the code produces "1/2/25" where the claim's pattern
demands "01/02/25". -/
theorem metadata_date_padding_counterexample :
    json_date_string ⟨7, 5, 9, 1, 2, 1, 55, 4⟩ = "1/2/25" ∧
    specClaimDateString ⟨7, 5, 9, 1, 2, 1, 55, 4⟩ = "01/02/25" ∧
    json_date_string ⟨7, 5, 9, 1, 2, 1, 55, 4⟩ ≠
      specClaimDateString ⟨7, 5, 9, 1, 2, 1, 55, 4⟩ := by decide

/-- Auxiliary: C `%d` of a C `int` holding a natural value renders as the
plain decimal digits of that value. -/
theorem fmtD_coe (n : Nat) : fmtD (n : Int) = toString n := rfl

/-- Auxiliary: C `%02d` of a C `int` holding a natural value coincides
with two-digit zero-padding. -/
theorem fmtD02_coe (n : Nat) : fmtD02 (n : Int) = pad2 n := by
  have h0 : ¬((n : Int) < 0) := by omega
  have hts : toString ((n : Int)) = toString n := rfl
  by_cases h : n < 10
  · have h' : (n : Int) < 10 := by omega
    simp [fmtD02, pad2, h0, h, h', hts]
  · have h' : ¬((n : Int) < 10) := by omega
    simp [fmtD02, pad2, h0, h, h', hts]

/-- C9 (amended): the metadata/status "Time" string is exactly the
claim's `H:MM:SS.mmm` pattern (no leading zero on the hour, zero-padded
minute and second, millisecond as its literal digits), but the "Date"
string is `M/D/YY` with month and day unpadded, the two-digit year still
being the stored year-offset minus 30. -/
theorem metadata_time_date_format :
    ∀ te : TmElements,
      json_time_string te = specClaimTimeString te ∧
      json_date_string te =
        toString te.Month ++ "/" ++ toString te.Day ++ "/" ++ fmtD02 ((te.Year : Int) - 30) := by
  intro te
  constructor
  · simp [json_time_string, specClaimTimeString, runFmt, fmtD_coe, fmtD02_coe,
      String.append_assoc]
  · simp [json_date_string, runFmt, fmtD_coe, String.append_assoc]

/-- C1: in every run of `json_get_image_file_string` in which
`json_add_lep_image_object` returns true, each scratch allocation made
during the build is freed exactly once by the time the function returns
(no double free, no leak), whatever the telemetry, allocation, encode and
print outcomes; and if the telemetry embed fails, the function returns 0
(with the image allocation still freed exactly once). -/
theorem image_file_string_frees_exactly_once (env : B64Env) (st0 : B64State)
    (ha : st0.allocs = []) (hf : st0.frees = [])
    (h : (json_add_lep_image_object env st0).1 = true) :
    freedExactlyOnce (json_get_image_file_string env st0).st = true ∧
    ((json_get_image_file_string env st0).telOk = false →
      (json_get_image_file_string env st0).len = 0) := by
  obtain ⟨r, ia, ie, ta, tec, p, pl⟩ := env
  obtain ⟨ld, td, nid, al, fr⟩ := st0
  simp only at ha hf
  subst ha hf
  cases r <;> cases ia <;> cases ie <;> cases ta <;> cases tec <;> cases p <;>
    simp_all [json_get_image_file_string, json_add_lep_image_object,
      json_add_lep_telem_object, json_free_lep_base64_image,
      json_free_lep_base64_telem, halloc, hfree, freedExactlyOnce]

/-- C1 witness: a run in which the image embed succeeds and the
telemetry encode fails still frees the one allocation exactly once and
returns 0. -/
theorem image_file_string_frees_exactly_once_witness :
    freedExactlyOnce
      (json_get_image_file_string ⟨true, true, true, true, false, true, 99⟩
        ⟨none, none, 0, [], []⟩).st = true ∧
    ((json_get_image_file_string ⟨true, true, true, true, false, true, 99⟩
        ⟨none, none, 0, [], []⟩).telOk = false →
      (json_get_image_file_string ⟨true, true, true, true, false, true, 99⟩
        ⟨none, none, 0, [], []⟩).len = 0) :=
  image_file_string_frees_exactly_once ⟨true, true, true, true, false, true, 99⟩
    ⟨none, none, 0, [], []⟩ rfl rfl (by decide)

/-- Auxiliary: a list of length 4 is a four-element list. -/
theorem length_four_form (l : List Nat) (h : l.length = 4) :
    ∃ a b c d, l = [a, b, c, d] := by
  rcases l with _ | ⟨a, l⟩
  · simp at h
  rcases l with _ | ⟨b, l⟩
  · simp at h
  rcases l with _ | ⟨c, l⟩
  · simp at h
  rcases l with _ | ⟨d, l⟩
  · simp at h
  rcases l with _ | ⟨e, l⟩
  · exact ⟨a, b, c, d, rfl⟩
  · simp at h

/-- Auxiliary: the element-by-element copy loop restores the source when
both arrays have the C declared length 4. -/
theorem copy4_eq (dst src : List Nat) (hd : dst.length = 4) (hs : src.length = 4) :
    copy4 dst src = src := by
  obtain ⟨a, b, c, d, rfl⟩ := length_four_form dst hd
  obtain ⟨x, y, z, w, rfl⟩ := length_four_form src hs
  rfl

/-- C10: whenever `json_parse_set_wifi` succeeds, the `cur_ip_addr` of
the produced settings equals the snapshot's `cur_ip_addr`, regardless of
the contents of args — a caller-supplied "cur_ip_addr" field in args is
never read, so the current IP address cannot be set through `set_wifi`. -/
theorem set_wifi_cur_ip_preserved (maxSsid maxPw : Nat) (args : Option JObj)
    (cur w0 : WifiInfo) (hc : cur.cur_ip_addr.length = 4)
    (h0 : w0.cur_ip_addr.length = 4)
    (h : (json_parse_set_wifi maxSsid maxPw args cur w0).1 = true) :
    (json_parse_set_wifi maxSsid maxPw args cur w0).2.cur_ip_addr = cur.cur_ip_addr := by
  revert h
  unfold json_parse_set_wifi
  rcases args with _ | a
  · intro h; exact absurd h (by simp)
  simp only
  split
  next heq => intro h; exact absurd h (by simp)
  next w1 c1 heq =>
  have hw1 : w1.cur_ip_addr = w0.cur_ip_addr := by
    repeat' split at heq
    all_goals first
      | exact Option.noConfusion heq
      | (injection heq with hp; injection hp with hw hc2; rw [← hw])
  split
  next heq2 => intro h; exact absurd h (by simp)
  next w2 c2 heq2 =>
  have hw2 : w2.cur_ip_addr = w1.cur_ip_addr := by
    repeat' split at heq2
    all_goals first
      | exact Option.noConfusion heq2
      | (injection heq2 with hp; injection hp with hw hc2; rw [← hw])
  split
  next heq3 => intro h; exact absurd h (by simp)
  next w3 c3 heq3 =>
  have hw3 : w3.cur_ip_addr = w2.cur_ip_addr := by
    repeat' split at heq3
    all_goals first
      | exact Option.noConfusion heq3
      | (injection heq3 with hp; injection hp with hw hc2; rw [← hw])
  split
  next heq4 => intro h; exact absurd h (by simp)
  next w4 c4 heq4 =>
  have hw4 : w4.cur_ip_addr = w3.cur_ip_addr := by
    repeat' split at heq4
    all_goals first
      | exact Option.noConfusion heq4
      | (injection heq4 with hp; injection hp with hw hc2; rw [← hw])
  split
  next heq5 => intro h; exact absurd h (by simp)
  next w5 c5 heq5 =>
  have hw5 : w5.cur_ip_addr = w4.cur_ip_addr := by
    repeat' split at heq5
    all_goals first
      | exact Option.noConfusion heq5
      | (injection heq5 with hp; injection hp with hw hc2; rw [← hw])
  split
  next heq6 => intro h; exact absurd h (by simp)
  next w6 c6 heq6 =>
  have hw6 : w6.cur_ip_addr = w5.cur_ip_addr := by
    repeat' split at heq6
    all_goals first
      | exact Option.noConfusion heq6
      | (injection heq6 with hp; injection hp with hw hc2; rw [← hw])
  split
  next heq7 => intro h; exact absurd h (by simp)
  next w7 c7 heq7 =>
  have hw7 : w7.cur_ip_addr = w6.cur_ip_addr := by
    repeat' split at heq7
    all_goals first
      | exact Option.noConfusion heq7
      | (injection heq7 with hp; injection hp with hw hc2; rw [← hw])
  intro h
  simp only
  exact copy4_eq _ _ (by rw [hw7, hw6, hw5, hw4, hw3, hw2, hw1, h0]) hc


/-- C10 witness: a successful `set_wifi` call whose args even contain a
"cur_ip_addr" field still returns the snapshot's current address. -/
theorem set_wifi_cur_ip_preserved_witness :
    (json_parse_set_wifi 32 63
        (some ⟨[("flags", JVal.num 5), ("cur_ip_addr", JVal.str "9.9.9.9")]⟩)
        ⟨"a", "b", "c", "d", 1, [1, 2, 3, 4], [5, 6, 7, 8], [9, 10, 11, 12], [13, 14, 15, 16]⟩
        ⟨"", "", "", "", 0, [0, 0, 0, 0], [0, 0, 0, 0], [0, 0, 0, 0], [0, 0, 0, 0]⟩).2.cur_ip_addr =
      (⟨"a", "b", "c", "d", 1, [1, 2, 3, 4], [5, 6, 7, 8], [9, 10, 11, 12],
        [13, 14, 15, 16]⟩ : WifiInfo).cur_ip_addr :=
  set_wifi_cur_ip_preserved 32 63
    (some ⟨[("flags", JVal.num 5), ("cur_ip_addr", JVal.str "9.9.9.9")]⟩)
    ⟨"a", "b", "c", "d", 1, [1, 2, 3, 4], [5, 6, 7, 8], [9, 10, 11, 12], [13, 14, 15, 16]⟩
    ⟨"", "", "", "", 0, [0, 0, 0, 0], [0, 0, 0, 0], [0, 0, 0, 0], [0, 0, 0, 0]⟩
    rfl rfl (by decide)


/-- Auxiliary: writing at offset `off + 1` leaves the head byte alone. -/
theorem writeBytes_cons_shift (bs : List Nat) : ∀ (y : Nat) (ys : List Nat) (off : Nat),
    writeBytes (y :: ys) (off + 1) bs = y :: writeBytes ys off bs := by
  induction bs with
  | nil => intro y ys off; rfl
  | cons b bs ih =>
    intro y ys off
    show writeBytes ((y :: ys).set (off + 1) b) (off + 1 + 1) bs = _
    rw [List.set_cons_succ]
    rw [ih]
    rfl

/-- Auxiliary: writing at offset 0 overwrites a prefix of the buffer. -/
theorem writeBytes_zero (bs : List Nat) : ∀ (buf : List Nat), bs.length ≤ buf.length →
    writeBytes buf 0 bs = bs ++ buf.drop bs.length := by
  induction bs with
  | nil => intro buf _; rfl
  | cons b bs ih =>
    intro buf hl
    rcases buf with _ | ⟨x, xs⟩
    · simp at hl
    · show writeBytes ((x :: xs).set 0 b) 1 bs = _
      rw [List.set_cons_zero]
      rw [show (1 : Nat) = 0 + 1 from rfl, writeBytes_cons_shift]
      rw [ih xs (by simpa using hl)]
      simp

/-- Auxiliary: `strlen` stops exactly at the first zero byte. -/
theorem takeWhile_append_zero (l rest : List Nat) (h : ∀ b ∈ l, b ≠ 0) :
    ((l ++ 0 :: rest).takeWhile (fun b => b != 0)) = l := by
  induction l with
  | nil => simp [List.takeWhile_cons]
  | cons x xs ih =>
    have hx : x ≠ 0 := h x (by simp)
    simp only [List.cons_append, List.takeWhile_cons]
    have : (x != 0) = true := by simpa using hx
    rw [this]
    simp only [if_true]
    rw [ih (fun b hb => h b (by simp [hb]))]

/-- Auxiliary: a store at the index just past a prefix replaces the next
element. -/
theorem set_append_cons (l : List Nat) : ∀ (y : Nat) (r : List Nat) (v : Nat),
    (l ++ y :: r).set l.length v = l ++ v :: r := by
  induction l with
  | nil => intro y r v; rfl
  | cons x xs ih =>
    intro y r v
    simp only [List.cons_append, List.length_cons, List.set_cons_succ]
    rw [ih]

/-- Auxiliary: the byte view of a string has the string's length. -/
theorem strBytes_length (s : String) : (strBytes s).length = s.length := by
  simp only [strBytes, List.length_map]
  rfl

/-- C5 (amended): in compact mode the START byte is written at offset 0,
the compact text at offset 1, a STOP byte immediately after the text and
a terminating zero byte after that; the returned length is the text
length plus 2 (the `strlen` taken by the code includes the START byte, so
both markers are counted), and a print failure returns 0. -/
theorem response_string_framing (s : String) (buf : List Nat)
    (hs : ∀ b ∈ strBytes s, b ≠ 0)
    (hlen : s.length + 3 ≤ buf.length) :
    (json_generate_response_string buf (some s)).1 = s.length + 2 ∧
    (json_generate_response_string buf (some s)).2.take (s.length + 3) =
      CMD_JSON_STRING_START :: strBytes s ++ [CMD_JSON_STRING_STOP, 0] ∧
    (json_generate_response_string buf none).1 = 0 := by
  rcases buf with _ | ⟨x, tail⟩
  · simp at hlen
  have htail : s.length + 2 ≤ tail.length := by
    simpa using hlen
  -- shape after the START store and the print store
  have h1 : (x :: tail).set 0 CMD_JSON_STRING_START = CMD_JSON_STRING_START :: tail :=
    List.set_cons_zero x tail CMD_JSON_STRING_START
  have hwb : writeBytes (CMD_JSON_STRING_START :: tail) 1 (strBytes s ++ [0]) =
      CMD_JSON_STRING_START :: (strBytes s ++ [0] ++ tail.drop (s.length + 1)) := by
    rw [show (1 : Nat) = 0 + 1 from rfl, writeBytes_cons_shift]
    rw [writeBytes_zero _ tail (by simp [strBytes_length]; omega)]
    simp [strBytes_length]
  -- the buffer after the print, in split form
  have hshape : CMD_JSON_STRING_START :: (strBytes s ++ [0] ++ tail.drop (s.length + 1)) =
      (CMD_JSON_STRING_START :: strBytes s) ++ 0 :: tail.drop (s.length + 1) := by
    simp
  have hcl : cstrlen ((CMD_JSON_STRING_START :: strBytes s) ++ 0 :: tail.drop (s.length + 1)) =
      s.length + 1 := by
    unfold cstrlen
    rw [takeWhile_append_zero _ _ ?_]
    · simp [strBytes_length]
    · intro b hb
      rcases List.mem_cons.mp hb with hb | hb
      · subst hb; decide
      · exact hs b hb
  -- the tail drop is nonempty, so the final zero store lands inside the buffer
  obtain ⟨r0, rest, hdrop⟩ :
      ∃ r0 rest, tail.drop (s.length + 1) = r0 :: rest := by
    rcases hd : tail.drop (s.length + 1) with _ | ⟨r0, rest⟩
    · exfalso
      have := congrArg List.length hd
      simp [List.length_drop] at this
      omega
    · exact ⟨r0, rest, rfl⟩
  have hlenp : (CMD_JSON_STRING_START :: strBytes s).length = s.length + 1 := by
    simp [strBytes_length]
  have hset1 : ((CMD_JSON_STRING_START :: strBytes s) ++ 0 :: r0 :: rest).set (s.length + 1)
      CMD_JSON_STRING_STOP =
      (CMD_JSON_STRING_START :: strBytes s) ++ CMD_JSON_STRING_STOP :: r0 :: rest := by
    rw [← hlenp, set_append_cons]
  have hlenp2 : ((CMD_JSON_STRING_START :: strBytes s) ++ [CMD_JSON_STRING_STOP]).length =
      s.length + 2 := by
    simp [strBytes_length]
  have hset2 : ((CMD_JSON_STRING_START :: strBytes s) ++ [CMD_JSON_STRING_STOP] ++ r0 :: rest).set
      (s.length + 2) 0 =
      (CMD_JSON_STRING_START :: strBytes s) ++ [CMD_JSON_STRING_STOP] ++ 0 :: rest := by
    rw [← hlenp2, set_append_cons]
  have hres : json_generate_response_string (x :: tail) (some s) =
      (s.length + 2,
        (CMD_JSON_STRING_START :: strBytes s ++ [CMD_JSON_STRING_STOP, 0]) ++ rest) := by
    simp only [json_generate_response_string]
    rw [h1, hwb, hshape, hcl, hdrop, hset1]
    rw [show (CMD_JSON_STRING_START :: strBytes s) ++ CMD_JSON_STRING_STOP :: r0 :: rest =
        (CMD_JSON_STRING_START :: strBytes s) ++ [CMD_JSON_STRING_STOP] ++ r0 :: rest by simp]
    rw [hset2]
    simp
  refine ⟨by rw [hres], ?_, rfl⟩
  rw [hres]
  have hlenp3 : (CMD_JSON_STRING_START :: strBytes s ++ [CMD_JSON_STRING_STOP, 0]).length =
      s.length + 3 := by
    simp [strBytes_length]
  rw [show CMD_JSON_STRING_START :: strBytes s ++ [CMD_JSON_STRING_STOP, 0] ++ rest =
      (CMD_JSON_STRING_START :: strBytes s ++ [CMD_JSON_STRING_STOP, 0]) ++ rest by simp,
    ← hlenp3, List.take_left]

/-- C5 counterexample: contrary to the claim's "text length + 1", the
returned length counts both the START and the STOP marker — for the
two-byte compact text the function returns 4, not 3, because the
`strlen` it takes starts at offset 0 and therefore includes the START
byte. -/
theorem response_string_length_counterexample :
    (json_generate_response_string (List.replicate 10 7) (some "\x7b\x7d")).1 = 4 ∧
    ("\x7b\x7d").length + 1 = 3 ∧
    (json_generate_response_string (List.replicate 10 7) (some "\x7b\x7d")).1 ≠
      ("\x7b\x7d").length + 1 := by decide

/-- C5 witness: the amended framing theorem evaluated on a two-byte
compact text and a ten-byte buffer. -/
theorem response_string_framing_witness :
    (json_generate_response_string (List.replicate 10 7) (some "\x7b\x7d")).1 =
      ("\x7b\x7d").length + 2 ∧
    (json_generate_response_string (List.replicate 10 7)
        (some "\x7b\x7d")).2.take (("\x7b\x7d").length + 3) =
      CMD_JSON_STRING_START :: strBytes "\x7b\x7d" ++ [CMD_JSON_STRING_STOP, 0] ∧
    (json_generate_response_string (List.replicate 10 7) none).1 = 0 :=
  response_string_framing "\x7b\x7d" (List.replicate 10 7) (by decide) (by decide)

/-- The digit test of the scan loop, written as the source's
`('0' <= c) && (c <= '9')` condition. -/
def isDigitChar (c : Char) : Bool :=
  decide ('0' ≤ c ∧ c ≤ '9')

/-- Decimal numeric value of a digit segment (unbounded; the value the
claim speaks about). -/
def segVal (seg : List Char) : Nat :=
  seg.foldl (fun a c => a * 10 + (c.toNat - 48)) 0

/-- Decimal accumulation of a digit segment from a given accumulator. -/
def segValFrom (a : Nat) (seg : List Char) : Nat :=
  seg.foldl (fun a c => a * 10 + (c.toNat - 48)) a

/-- The `uint8_t` accumulation the scan loop actually performs: each
step reduces modulo 256. -/
def segAcc (a : Nat) (seg : List Char) : Nat :=
  seg.foldl (fun a c => (a * 10 + (c.toNat - 48)) % 256) a

/-- Auxiliary: reading back the element just stored. -/
theorem getD_set_self (l : List Nat) (i a : Nat) (h : i < l.length) :
    (l.set i a).getD i 0 = a := by
  simp [List.getD_eq_getElem?_getD, List.getElem?_set_self, h]

/-- Auxiliary: scanning a run of digits accumulates them (mod 256) into
the current octet slot and touches nothing else. -/
theorem ipLoop_digits (seg : List Char) : ∀ (rest : List Char) (i : Nat) (arr : List Nat) (a : Nat),
    (∀ c ∈ seg, isDigitChar c = true) → i < arr.length →
    ipLoop (seg ++ rest) i (arr.set i a) = ipLoop rest i (arr.set i (segAcc a seg)) := by
  induction seg with
  | nil => intro rest i arr a _ _; rfl
  | cons c cs ih =>
    intro rest i arr a hd hi
    have hc : ('0' ≤ c ∧ c ≤ '9') := by
      have := hd c (by simp)
      simpa [isDigitChar] using this
    have hdot : ¬ (c = '.') := by
      intro hcc
      subst hcc
      exact absurd hc.1 (by decide)
    show ipLoop (c :: (cs ++ rest)) i (arr.set i a) = _
    rw [show ipLoop (c :: (cs ++ rest)) i (arr.set i a) =
        ipLoop (cs ++ rest) i ((arr.set i a).set i
          (((arr.set i a).getD i 0 * 10 + (c.toNat - 48)) % 256)) by
      simp [ipLoop, hdot, hc]]
    rw [getD_set_self arr i a hi, List.set_set]
    rw [ih rest i arr ((a * 10 + (c.toNat - 48)) % 256) (fun x hx => hd x (by simp [hx])) hi]
    rfl

/-- Auxiliary: modulo 256, the decimal accumulation only depends on the
accumulator modulo 256. -/
theorem segValFrom_mod (seg : List Char) : ∀ a : Nat,
    segValFrom (a % 256) seg % 256 = segValFrom a seg % 256 := by
  induction seg with
  | nil => intro a; simp [segValFrom, Nat.mod_mod_of_dvd]
  | cons c cs ih =>
    intro a
    show segValFrom (a % 256 * 10 + (c.toNat - 48)) cs % 256 =
      segValFrom (a * 10 + (c.toNat - 48)) cs % 256
    calc segValFrom (a % 256 * 10 + (c.toNat - 48)) cs % 256
        = segValFrom ((a % 256 * 10 + (c.toNat - 48)) % 256) cs % 256 := (ih _).symm
      _ = segValFrom ((a * 10 + (c.toNat - 48)) % 256) cs % 256 := by
          rw [show (a % 256 * 10 + (c.toNat - 48)) % 256 =
              (a * 10 + (c.toNat - 48)) % 256 by omega]
      _ = segValFrom (a * 10 + (c.toNat - 48)) cs % 256 := ih _

/-- Auxiliary: the stepwise mod-256 accumulation equals the full decimal
value reduced modulo 256. -/
theorem segAcc_eq (seg : List Char) : ∀ a : Nat, a < 256 →
    segAcc a seg = segValFrom a seg % 256 := by
  induction seg with
  | nil => intro a ha; exact (Nat.mod_eq_of_lt ha).symm
  | cons c cs ih =>
    intro a ha
    show segAcc ((a * 10 + (c.toNat - 48)) % 256) cs = segValFrom (a * 10 + (c.toNat - 48)) cs % 256
    rw [ih _ (Nat.mod_lt _ (by omega))]
    exact segValFrom_mod cs _



/-- C4 (amended): for every dotted string of four digit-only segments
separated by exactly three '.' characters, provided each segment's
numeric value is at most 255, parsing with `json_ip_string_to_array` and
rendering with the reversed-index `"%d.%d.%d.%d"` format of
`json_get_wifi` reproduces the original four numeric segment values.
Without the 255 bound the octet accumulator overflows modulo 256 and the
round trip fails. -/
theorem ip_roundtrip (s : String) (s1 s2 s3 s4 : List Char) (a0 a1 a2 a3 : Nat)
    (hd1 : ∀ c ∈ s1, isDigitChar c = true) (hd2 : ∀ c ∈ s2, isDigitChar c = true)
    (hd3 : ∀ c ∈ s3, isDigitChar c = true) (hd4 : ∀ c ∈ s4, isDigitChar c = true)
    (hv1 : segVal s1 < 256) (hv2 : segVal s2 < 256)
    (hv3 : segVal s3 < 256) (hv4 : segVal s4 < 256)
    (hs : s.data = s1 ++ '.' :: (s2 ++ '.' :: (s3 ++ '.' :: s4))) :
    (json_ip_string_to_array [a0, a1, a2, a3] s).1 = true ∧
    format_ip (json_ip_string_to_array [a0, a1, a2, a3] s).2 =
      toString (segVal s1) ++ "." ++ toString (segVal s2) ++ "." ++
        toString (segVal s3) ++ "." ++ toString (segVal s4) := by
  have hseg : ∀ t : List Char, (∀ c ∈ t, isDigitChar c = true) → segVal t < 256 →
      segAcc 0 t = segVal t := by
    intro t _ hv
    rw [segAcc_eq t 0 (by omega)]
    exact Nat.mod_eq_of_lt hv
  have hrun : json_ip_string_to_array [a0, a1, a2, a3] s =
      (true, [segAcc 0 s4, segAcc 0 s3, segAcc 0 s2, segAcc 0 s1]) := by
    unfold json_ip_string_to_array
    rw [hs]
    rw [ipLoop_digits s1 ('.' :: (s2 ++ '.' :: (s3 ++ '.' :: s4))) 3 [a0, a1, a2, a3] 0 hd1
      (by simp)]
    rw [show ipLoop ('.' :: (s2 ++ '.' :: (s3 ++ '.' :: s4))) 3
        ([a0, a1, a2, a3].set 3 (segAcc 0 s1)) =
        ipLoop (s2 ++ '.' :: (s3 ++ '.' :: s4)) 2
          ([a0, a1, a2, segAcc 0 s1].set 2 0) from rfl]
    rw [ipLoop_digits s2 ('.' :: (s3 ++ '.' :: s4)) 2 [a0, a1, a2, segAcc 0 s1] 0 hd2 (by simp)]
    rw [show ipLoop ('.' :: (s3 ++ '.' :: s4)) 2
        ([a0, a1, a2, segAcc 0 s1].set 2 (segAcc 0 s2)) =
        ipLoop (s3 ++ '.' :: s4) 1 ([a0, a1, segAcc 0 s2, segAcc 0 s1].set 1 0) from rfl]
    rw [ipLoop_digits s3 ('.' :: s4) 1 [a0, a1, segAcc 0 s2, segAcc 0 s1] 0 hd3 (by simp)]
    rw [show ipLoop ('.' :: s4) 1
        ([a0, a1, segAcc 0 s2, segAcc 0 s1].set 1 (segAcc 0 s3)) =
        ipLoop s4 0 ([a0, segAcc 0 s3, segAcc 0 s2, segAcc 0 s1].set 0 0) from rfl]
    rw [show (s4 : List Char) = s4 ++ [] by simp]
    rw [ipLoop_digits s4 [] 0 [a0, segAcc 0 s3, segAcc 0 s2, segAcc 0 s1] 0 hd4 (by simp)]
    simp [ipLoop]
  refine ⟨by rw [hrun], ?_⟩
  rw [hrun]
  show format_ip [segAcc 0 s4, segAcc 0 s3, segAcc 0 s2, segAcc 0 s1] = _
  rw [hseg s1 hd1 hv1, hseg s2 hd2 hv2, hseg s3 hd3 hv3, hseg s4 hd4 hv4]
  rfl



/-- C4 counterexample: the claim as stated fails for "256.0.0.0" — the
parse succeeds but the first octet overflows to 0, so the round trip
renders "0.0.0.0" instead of reproducing the numeric value 256. -/
theorem ip_roundtrip_overflow_counterexample :
    (json_ip_string_to_array [0, 0, 0, 0] "256.0.0.0").1 = true ∧
    format_ip (json_ip_string_to_array [0, 0, 0, 0] "256.0.0.0").2 = "0.0.0.0" ∧
    format_ip (json_ip_string_to_array [0, 0, 0, 0] "256.0.0.0").2 ≠
      toString 256 ++ "." ++ toString 0 ++ "." ++ toString 0 ++ "." ++ toString 0 := by
  decide

/-- C4 witness: the amended round trip evaluated on "10.20.30.40". -/
theorem ip_roundtrip_witness :
    (json_ip_string_to_array [9, 9, 9, 9] "10.20.30.40").1 = true ∧
    format_ip (json_ip_string_to_array [9, 9, 9, 9] "10.20.30.40").2 =
      toString (segVal ['1', '0']) ++ "." ++ toString (segVal ['2', '0']) ++ "." ++
        toString (segVal ['3', '0']) ++ "." ++ toString (segVal ['4', '0']) :=
  ip_roundtrip "10.20.30.40" ['1', '0'] ['2', '0'] ['3', '0'] ['4', '0'] 9 9 9 9
    (by decide) (by decide) (by decide) (by decide)
    (by decide) (by decide) (by decide) (by decide) (by decide)

end JsonUtil
